import Mathlib

/-
Shallow embedding of the Albert launcher plugin `albert_arch_packages`
(source: src/__init__.py), a dual-source package search that queries the
Arch Linux official repositories and the AUR, and verification of the
specification claims about it.

Modelling conventions:
  * Python machine-level effects (HTTP transport, JSON decoding) are
    represented by `Except PyErr` values passed into the functions that
    consume them; a `.error` value stands for the corresponding Python
    exception propagating out of `urlopen`/`json.loads`.
  * `gen_id` is the bound method `self.id` of the plugin instance, a
    nullary callable returning the fixed plugin-id string; it is modelled
    by that string (`gid`).
  * `highlight_query` applies a compiled case-insensitive regex
    substitution (Python `re`); the substitution itself is external
    library behaviour and is modelled by a parameter `hl : String → String`
    applied to the package name.  Whether `re.compile` itself succeeds is
    modelled separately by `reCompileOk` below.
  * `to_local_time_str ∘ strptime` / `∘ fromtimestamp` convert timestamps
    using the machine-local timezone; they are modelled by parameters
    `fmtDate : String → String` and `fmtTs : Int → String`.
  * Python `list.sort(key=...)` is a stable ascending sort.  It is
    modelled by Mathlib's `List.insertionSort`, which is also stable, so
    for the total preorders used here the two produce identical output.
-/

namespace ArchPackages

/-- Python exceptions that can propagate out of the plugin code paths
modelled here. -/
inductive PyErr where
  | transport
  | decode
  | valueIdx
  | reCompile
  | assertionFailed
deriving DecidableEq

/-- Model of `albert.Action`: the closure `lambda: openUrl(url)` is
represented by the URL it opens. -/
structure Action where
  id : String
  text : String
  opensUrl : String
deriving DecidableEq

/-- Model of `albert.StandardItem` (the DisplayItem of the spec).
`actions` defaults to `[]`, as in the `StandardItem` constructor. -/
structure Item where
  id : String
  text : String
  subtext : String
  iconUrls : List String
  actions : List Action := []
deriving DecidableEq

def md_name : String := "Arch Linux Packages"

/-- The real value is `file:` followed by a machine-dependent absolute
path to `icons/arch.svg`; no claim depends on the path. -/
def ICON_URL : String := "file:icons/arch.svg"

/-- Whitespace stripped by Python `str.strip()` (the ASCII whitespace
characters; the rarely-typed non-ASCII Unicode whitespace is omitted, so
theorems quantify over slightly fewer strings than Python strips). -/
def pyIsSpace (c : Char) : Bool :=
  c == ' ' || c == '\t' || c == '\n' || c == '\r' || c == '\x0b' || c == '\x0c'

/-- Python `s.strip()`. -/
def pyStrip (s : String) : String :=
  String.mk (((s.data.dropWhile pyIsSpace).reverse.dropWhile pyIsSpace).reverse)

/-- Python `needle in hay` on strings: literal, case-sensitive substring
containment, i.e. the needle's character list is an infix of the
haystack's. -/
def pyIn (needle hay : String) : Bool :=
  decide (needle.data <:+: hay.data)

/-- Lexicographic `≤` on character lists by Unicode code point, matching
Python string comparison. -/
def charListLeB : List Char → List Char → Bool
  | [], _ => true
  | _ :: _, [] => false
  | a :: as, b :: bs =>
    decide (a.toNat < b.toNat) || (a.toNat == b.toNat && charListLeB as bs)

/-- Python `s1 <= s2` on strings. -/
def strLeB (a b : String) : Bool :=
  charListLeB a.data b.data

/-- Python tuple comparison `(len(n1), n1) <= (len(n2), n2)`. -/
def nameLenLe (n1 n2 : String) : Bool :=
  decide (n1.length < n2.length) || (n1.length == n2.length && strLeB n1 n2)

/-- Acceptance of Python `re.compile` on the raw query string, for the
regex-syntax fragment relevant here: a pattern is rejected when it has an
unterminated character class (for example a lone `[`), a trailing
backslash, or unbalanced groups.  `mode` is 0 outside a class, 1 right
after `[` (where the first character, even `]`, is a literal member) and
2 inside a class; `d` is the open-group depth. -/
def reScan : List Char → Nat → Nat → Bool
  | [], d, mode => mode == 0 && d == 0
  | ['\\'], _, _ => false
  | '\\' :: _ :: rest, d, mode => reScan rest d (if mode == 0 then 0 else 2)
  | c :: rest, d, mode =>
    if mode == 1 then reScan rest d 2
    else if mode == 2 then
      if c == ']' then reScan rest d 0 else reScan rest d 2
    else if c == '[' then reScan rest d 1
    else if c == '(' then reScan rest (d + 1) 0
    else if c == ')' then decide (0 < d) && reScan rest (d - 1) 0
    else reScan rest d 0

/-- Model of line 107 / line 185: `re.compile(query_str, re.IGNORECASE)`
succeeds.  The query string is passed to the regex compiler verbatim —
the source applies no `re.escape`. -/
def reCompileOk (s : String) : Bool :=
  reScan s.data 0 0

/-- Model of the TypedDict `ArchQueryEntry` (one official-search result).
`flag_date` is `str | None`; Python truthiness on it is
`Option.isSome` + non-emptiness. -/
structure ArchQueryEntry where
  pkgname : String
  repo : String
  arch : String
  pkgver : String
  pkgrel : String
  pkgdesc : String
  url : String
  flag_date : Option String
  maintainers : List String
deriving DecidableEq

/-- Model of the TypedDict `ArchQueryRes`: the decoded body of one
official-search response.  The source declares (and reads) only the
`results` field — in particular no page count. -/
structure ArchQueryRes where
  results : List ArchQueryEntry
deriving DecidableEq

/-- Python truthiness of an optional string (`None` and `''` are falsy). -/
def pyTruthyOptStr : Option String → Bool
  | none => false
  | some s => !(s == "")

/-- Python truthiness of an optional int (`None` and `0` are falsy). -/
def pyTruthyOptInt : Option Int → Bool
  | none => false
  | some n => !(n == 0)

def ArchOfficialRepository.repos : List String := ["Core", "Extra"]

def ArchOfficialRepository.repos_lower : List String := ["core", "extra"]

/-- The sort key comparison of line 103–105:
Python `(repos_lower.index(repo), len(pkgname), pkgname) <= ...` as a
boolean total preorder.  `List.indexOf` agrees with Python `list.index`
whenever the repo occurs in `repos_lower`; `ArchOfficialRepository.query`
only sorts under that condition (otherwise `list.index` raises
`ValueError` and the whole adapter call fails). -/
def ArchOfficialRepository.sortLe (a b : ArchQueryEntry) : Bool :=
  let ra := ArchOfficialRepository.repos_lower.indexOf a.repo
  let rb := ArchOfficialRepository.repos_lower.indexOf b.repo
  decide (ra < rb) || (ra == rb && nameLenLe a.pkgname b.pkgname)

/-- Stable ascending sort of line 103–105 (`results_json.sort(key=...)`). -/
def ArchOfficialRepository.sortResults (l : List ArchQueryEntry) : List ArchQueryEntry :=
  l.insertionSort (fun a b => ArchOfficialRepository.sortLe a b = true)

/-- Model of `ArchOfficialRepository.entry_to_item` (lines 63–88). -/
def ArchOfficialRepository.entry_to_item (e : ArchQueryEntry)
    (hl fmtDate : String → String) (gid : String) : Item :=
  let name := e.pkgname
  let sub0 := e.pkgdesc
  let sub1 :=
    if pyTruthyOptStr e.flag_date then
      "<font color=\"red\">[Out of date: " ++ fmtDate (e.flag_date.getD "") ++ "]</font> " ++ sub0
    else sub0
  let sub2 :=
    if e.maintainers.isEmpty then "<font color=\"red\">[Orphan]</font> " ++ sub1 else sub1
  let sub3 := "<font color=\"dimgray\">[" ++ e.repo ++ "]</font> " ++ sub2
  let url := "https://archlinux.org/packages/" ++ e.repo ++ "/" ++ e.arch ++ "/" ++ name ++ "/"
  let acts :=
    [Action.mk (md_name ++ "/" ++ url) "Open Arch repositories website" url] ++
      (if !(e.url == "") then
        [Action.mk (md_name ++ "/" ++ e.url) "Open project website" e.url]
      else [])
  { id := gid
    text := hl name ++ " " ++ e.pkgver ++ "-" ++ e.pkgrel
    subtext := sub3
    iconUrls := [ICON_URL]
    actions := acts }

/-- The filter-and-map loop of lines 108–114: walk the sorted entries in
order, skip any entry whose `pkgname` does not contain the query string
as a literal substring, and append the built item for the rest. -/
def ArchOfficialRepository.collect (q : String) (hl fmtDate : String → String)
    (gid : String) : List ArchQueryEntry → List Item
  | [] => []
  | e :: rest =>
    if pyIn q e.pkgname then
      ArchOfficialRepository.entry_to_item e hl fmtDate gid ::
        ArchOfficialRepository.collect q hl fmtDate gid rest
    else ArchOfficialRepository.collect q hl fmtDate gid rest

/-- Model of `ArchOfficialRepository.query` (lines 90–115) applied to an
already-transported-and-decoded response body `res`.  Exceptions escape
as `.error`: `ValueError` from `repos_lower.index` on an entry whose repo
is not in the queried set (raised while sorting, line 103–105), then
`re.error` from `re.compile` on the raw query string (line 107). -/
def ArchOfficialRepository.query (q : String) (res : ArchQueryRes)
    (hl fmtDate : String → String) (gid : String) : Except PyErr (List Item) :=
  if res.results.all (fun e => ArchOfficialRepository.repos_lower.contains e.repo) then
    if reCompileOk q then
      .ok (ArchOfficialRepository.collect q hl fmtDate gid
        (ArchOfficialRepository.sortResults res.results))
    else .error .reCompile
  else .error .valueIdx

/-- The URL query parameters built on lines 92–95: two `repo` pairs and
the query string.  There is no `page` parameter. -/
def ArchOfficialRepository.requestParams (q : String) : List (String × String) :=
  (ArchOfficialRepository.repos.map (fun r => ("repo", r))) ++ [("q", q)]

/-- The HTTP requests one call of `ArchOfficialRepository.query` issues:
exactly the single `urlopen` of line 98 — there is no loop over pages. -/
def ArchOfficialRepository.issuedRequests (q : String) : List (List (String × String)) :=
  [ArchOfficialRepository.requestParams q]

/-- Modelled from the spec: the request sequence the spec claims for the
official adapter — issue page 1, read the declared total page count `n`,
and continue with pages 2..n in increasing order.  Stated only to be
compared with `ArchOfficialRepository.issuedRequests`; the source has no
such loop. -/
def specPagedRequests (q : String) (numPages : Nat) : List (List (String × String)) :=
  (List.range numPages).map
    (fun i => ArchOfficialRepository.requestParams q ++ [("page", toString (i + 1))])

/-- Model of the TypedDict `AurQueryEntry` (one AUR RPC result). -/
structure AurQueryEntry where
  Name : String
  Version : String
  Description : String
  URL : String
  NumVotes : Nat
  OutOfDate : Option Int
  Maintainer : Option String
deriving DecidableEq

/-- Model of the TypedDict `AurQueryRes`: the decoded body of one AUR RPC
response.  `error` is `NotRequired`, hence an `Option`. -/
structure AurQueryRes where
  type : String
  results : List AurQueryEntry
  error : Option String := none
deriving DecidableEq

/-- The sort key comparison of line 183: Python
`(len(Name), Name) <= (len(Name), Name)`. -/
def ArchUserRepository.sortLe (a b : AurQueryEntry) : Bool :=
  nameLenLe a.Name b.Name

/-- Stable ascending sort of line 183 (`results_json.sort(key=...)`). -/
def ArchUserRepository.sortResults (l : List AurQueryEntry) : List AurQueryEntry :=
  l.insertionSort (fun a b => ArchUserRepository.sortLe a b = true)

/-- Model of `ArchUserRepository.entry_to_item` (lines 137–162). -/
def ArchUserRepository.entry_to_item (e : AurQueryEntry)
    (hl : String → String) (fmtTs : Int → String) (gid : String) : Item :=
  let name := e.Name
  let sub0 := if !(e.Description == "") then e.Description else "[No description]"
  let sub1 :=
    if pyTruthyOptInt e.OutOfDate then
      "<font color=\"red\">[Out of date: " ++ fmtTs (e.OutOfDate.getD 0) ++ "]</font> " ++ sub0
    else sub0
  let sub2 :=
    if e.Maintainer.isNone then "<font color=\"red\">[Orphan]</font> " ++ sub1 else sub1
  let sub3 := "<font color=\"dimgray\">[AUR]</font> " ++ sub2
  let url := "https://aur.archlinux.org/packages/" ++ name ++ "/"
  let acts :=
    [Action.mk (md_name ++ "/" ++ url) "Open AUR website" url] ++
      (if !(e.URL == "") then
        [Action.mk (md_name ++ "/" ++ e.URL) "Open project website" e.URL]
      else [])
  { id := gid
    text := hl name ++ " " ++ e.Version ++ " (" ++ toString e.NumVotes ++ ")"
    subtext := sub3
    iconUrls := [ICON_URL]
    actions := acts }

/-- Model of `ArchUserRepository.query` (lines 164–187) applied to an
already-transported-and-decoded response body `res`.  On an `error`-typed
envelope: `assert 'error' in data` (line 174) fails when the `error`
field is absent; otherwise a single actionless item carrying the
upstream message is returned and entry mapping is bypassed.  Otherwise
the entries are sorted (line 183) and mapped (line 186) after the regex
compile of line 185. -/
def ArchUserRepository.query (q : String) (res : AurQueryRes)
    (hl : String → String) (fmtTs : Int → String) (gid : String) : Except PyErr (List Item) :=
  if res.type == "error" then
    match res.error with
    | none => .error .assertionFailed
    | some msg =>
      .ok [{ id := gid, text := "Error", subtext := msg, iconUrls := [ICON_URL] }]
  else
    if reCompileOk q then
      .ok ((ArchUserRepository.sortResults res.results).map
        (fun e => ArchUserRepository.entry_to_item e hl fmtTs gid))
    else .error .reCompile

/-- The static help item of lines 207–224, emitted for an empty query. -/
def Plugin.helpItem (gid : String) : Item :=
  { id := gid
    text := md_name
    subtext := "Enter a query to search Arch Linux and AUR packages"
    iconUrls := [ICON_URL]
    actions :=
      [Action.mk (md_name ++ "/open_arch_repos") "Open Arch repositories website"
        "https://archlinux.org/packages/",
       Action.mk (md_name ++ "/open_aur") "Open AUR website"
        "https://aur.archlinux.org/packages/"] }

/-- The rate-limit pacing loop of lines 229–232: fifty 10 ms sleeps, and
after the sleep ending at tick `i + 1` the handler returns (making no
network call and adding no item) if the query has become invalid.
`valid t` is the host's `query.isValid` polled at tick `t`. -/
def Plugin.pacingAborted (valid : Nat → Bool) : Bool :=
  (List.range 50).any (fun i => !(valid (i + 1)))

/-- Modelled from the spec: the host side of `query.add` is not part of
this repository.  Per the spec, results must never reach the output after
invalidation while in-flight calls are allowed to finish, i.e. the host
discards items added to a query that is no longer valid. -/
def queryAdd (validNow : Bool) (items : List Item) : List Item :=
  if validNow then items else []

/-- Model of `Plugin.handleTriggerQuery` (lines 203–240).  Inputs:
`s` the raw query string, `valid` the validity signal by tick,
`fetchDur` the duration (in ticks past the pacing window) of the
concurrent fetch round, `officialHttp`/`aurHttp` the transported-and-
decoded response bodies (or the transport/decode failure) of the two
adapter calls, and `gid` the plugin id (`self.id`).  Returns the number
of network calls attempted and the items that reach the output.
Both futures are awaited and their results gathered in one list
comprehension (line 240); if either `future.result()` re-raises, the
comprehension — and hence the single `query.add` — never runs. -/
def Plugin.handleTriggerQuery (s : String) (valid : Nat → Bool) (fetchDur : Nat)
    (officialHttp : Except PyErr ArchQueryRes) (aurHttp : Except PyErr AurQueryRes)
    (hl fmtDate : String → String) (fmtTs : Int → String) (gid : String) :
    Nat × List Item :=
  let q := pyStrip s
  if q == "" then (0, [Plugin.helpItem gid])
  else if Plugin.pacingAborted valid then (0, [])
  else
    match officialHttp.bind (fun r => ArchOfficialRepository.query q r hl fmtDate gid),
        aurHttp.bind (fun r => ArchUserRepository.query q r hl fmtTs gid) with
    | .ok o, .ok a => (2, queryAdd (valid (50 + fetchDur)) (o ++ a))
    | _, _ => (2, [])

/-! ### Order lemmas for the two sort comparisons -/

theorem charListLeB_total (a : List Char) :
    ∀ b : List Char, charListLeB a b = true ∨ charListLeB b a = true := by
  induction a with
  | nil => intro b; exact Or.inl rfl
  | cons x as ih =>
    intro b
    cases b with
    | nil => exact Or.inr rfl
    | cons y bs =>
      simp only [charListLeB, Bool.or_eq_true, Bool.and_eq_true, decide_eq_true_eq,
        beq_iff_eq]
      rcases Nat.lt_trichotomy x.toNat y.toNat with h | h | h
      · exact Or.inl (Or.inl h)
      · rcases ih bs with h2 | h2
        · exact Or.inl (Or.inr ⟨h, h2⟩)
        · exact Or.inr (Or.inr ⟨h.symm, h2⟩)
      · exact Or.inr (Or.inl h)

theorem charListLeB_trans (a : List Char) :
    ∀ b c : List Char, charListLeB a b = true → charListLeB b c = true →
      charListLeB a c = true := by
  induction a with
  | nil => intro b c _ _; rfl
  | cons x as ih =>
    intro b c hab hbc
    cases b with
    | nil => simp [charListLeB] at hab
    | cons y bs =>
      cases c with
      | nil => simp [charListLeB] at hbc
      | cons z cs =>
        simp only [charListLeB, Bool.or_eq_true, Bool.and_eq_true, decide_eq_true_eq,
          beq_iff_eq] at hab hbc ⊢
        rcases hab with h1 | ⟨h1, h1r⟩
        · rcases hbc with h2 | ⟨h2, h2r⟩
          · exact Or.inl (by omega)
          · exact Or.inl (by omega)
        · rcases hbc with h2 | ⟨h2, h2r⟩
          · exact Or.inl (by omega)
          · exact Or.inr ⟨by omega, ih bs cs h1r h2r⟩

theorem nameLenLe_total (a b : String) : nameLenLe a b = true ∨ nameLenLe b a = true := by
  simp only [nameLenLe, strLeB, Bool.or_eq_true, Bool.and_eq_true, decide_eq_true_eq,
    beq_iff_eq]
  rcases Nat.lt_trichotomy a.length b.length with h | h | h
  · exact Or.inl (Or.inl h)
  · rcases charListLeB_total a.data b.data with h2 | h2
    · exact Or.inl (Or.inr ⟨h, h2⟩)
    · exact Or.inr (Or.inr ⟨h.symm, h2⟩)
  · exact Or.inr (Or.inl h)

theorem nameLenLe_trans (a b c : String) :
    nameLenLe a b = true → nameLenLe b c = true → nameLenLe a c = true := by
  simp only [nameLenLe, strLeB, Bool.or_eq_true, Bool.and_eq_true, decide_eq_true_eq,
    beq_iff_eq]
  intro hab hbc
  rcases hab with h1 | ⟨h1, h1r⟩ <;> rcases hbc with h2 | ⟨h2, h2r⟩
  · exact Or.inl (by omega)
  · exact Or.inl (by omega)
  · exact Or.inl (by omega)
  · exact Or.inr ⟨by omega, charListLeB_trans _ _ _ h1r h2r⟩

theorem officialSortLe_total (a b : ArchQueryEntry) :
    ArchOfficialRepository.sortLe a b = true ∨ ArchOfficialRepository.sortLe b a = true := by
  simp only [ArchOfficialRepository.sortLe, Bool.or_eq_true, Bool.and_eq_true,
    decide_eq_true_eq, beq_iff_eq]
  rcases Nat.lt_trichotomy (ArchOfficialRepository.repos_lower.indexOf a.repo)
      (ArchOfficialRepository.repos_lower.indexOf b.repo) with h | h | h
  · exact Or.inl (Or.inl h)
  · rcases nameLenLe_total a.pkgname b.pkgname with h2 | h2
    · exact Or.inl (Or.inr ⟨h, h2⟩)
    · exact Or.inr (Or.inr ⟨h.symm, h2⟩)
  · exact Or.inr (Or.inl h)

theorem officialSortLe_trans (a b c : ArchQueryEntry) :
    ArchOfficialRepository.sortLe a b = true → ArchOfficialRepository.sortLe b c = true →
      ArchOfficialRepository.sortLe a c = true := by
  simp only [ArchOfficialRepository.sortLe, Bool.or_eq_true, Bool.and_eq_true,
    decide_eq_true_eq, beq_iff_eq]
  intro hab hbc
  rcases hab with h1 | ⟨h1, h1r⟩ <;> rcases hbc with h2 | ⟨h2, h2r⟩
  · exact Or.inl (by omega)
  · exact Or.inl (by omega)
  · exact Or.inl (by omega)
  · exact Or.inr ⟨by omega, nameLenLe_trans _ _ _ h1r h2r⟩

theorem aurSortLe_total (a b : AurQueryEntry) :
    ArchUserRepository.sortLe a b = true ∨ ArchUserRepository.sortLe b a = true :=
  nameLenLe_total a.Name b.Name

theorem aurSortLe_trans (a b c : AurQueryEntry) :
    ArchUserRepository.sortLe a b = true → ArchUserRepository.sortLe b c = true →
      ArchUserRepository.sortLe a c = true :=
  nameLenLe_trans a.Name b.Name c.Name

/-! ### Shape lemmas for the adapters and the controller -/

theorem ArchOfficialRepository.collect_eq_filter_map (q : String) (hl fd : String → String)
    (gid : String) (l : List ArchQueryEntry) :
    ArchOfficialRepository.collect q hl fd gid l
      = (l.filter (fun e => pyIn q e.pkgname)).map
          (fun e => ArchOfficialRepository.entry_to_item e hl fd gid) := by
  induction l with
  | nil => rfl
  | cons e rest ih =>
    by_cases h : pyIn q e.pkgname
    · simp [ArchOfficialRepository.collect, h, ih, List.filter_cons]
    · simp [ArchOfficialRepository.collect, h, ih, List.filter_cons]

/-- Whenever `ArchOfficialRepository.query` returns normally, its output
is exactly: sort, then keep the entries whose name contains the query as
a literal substring, then build the items. -/
theorem ArchOfficialRepository.query_ok_shape (q : String) (res : ArchQueryRes)
    (hl fd : String → String) (gid : String) (items : List Item)
    (hok : ArchOfficialRepository.query q res hl fd gid = .ok items) :
    items = ((ArchOfficialRepository.sortResults res.results).filter
          (fun e => pyIn q e.pkgname)).map
        (fun e => ArchOfficialRepository.entry_to_item e hl fd gid) := by
  unfold ArchOfficialRepository.query at hok
  by_cases h1 : res.results.all
      (fun e => ArchOfficialRepository.repos_lower.contains e.repo)
  · rw [if_pos h1] at hok
    by_cases h2 : reCompileOk q
    · rw [if_pos h2] at hok
      injection hok with hok
      rw [← hok, ArchOfficialRepository.collect_eq_filter_map]
    · rw [if_neg h2] at hok
      cases hok
  · rw [if_neg h1] at hok
    cases hok

/-- Whenever `ArchUserRepository.query` returns normally, every returned
item carries the plugin id `gid` as its identifier. -/
theorem ArchUserRepository.query_ok_ids (q : String) (res : AurQueryRes)
    (hl : String → String) (ft : Int → String) (gid : String) (items : List Item)
    (hok : ArchUserRepository.query q res hl ft gid = .ok items) :
    ∀ it ∈ items, it.id = gid := by
  unfold ArchUserRepository.query at hok
  by_cases h : res.type == "error"
  · rw [if_pos h] at hok
    cases herr : res.error with
    | none => rw [herr] at hok; cases hok
    | some msg =>
      rw [herr] at hok
      injection hok with hok
      intro it hit
      rw [← hok] at hit
      simp only [List.mem_singleton] at hit
      rw [hit]
  · rw [if_neg h] at hok
    by_cases h2 : reCompileOk q
    · rw [if_pos h2] at hok
      injection hok with hok
      intro it hit
      rw [← hok] at hit
      rcases List.mem_map.mp hit with ⟨e, _, rfl⟩
      rfl
    · rw [if_neg h2] at hok
      cases hok

/-! ### Claims -/

/-- Claim C4 (code bug in the source): the claim says the match-pattern
construction never fails on user input, but line 107 and line 185 pass
the raw query string to `re.compile` with no `re.escape`, so the query
string consisting of a lone unmatched bracket makes `re.compile` raise
`re.error` and both adapters fail instead of producing items. -/
theorem c4_raw_query_regex_compile_fails :
    reCompileOk "[" = false
    ∧ ArchOfficialRepository.query "[" ⟨[]⟩ (fun n => n) (fun _ => "") "pid"
        = .error .reCompile
    ∧ ArchUserRepository.query "[" ⟨"search", [], none⟩ (fun n => n) (fun _ => "") "pid"
        = .error .reCompile :=
  ⟨rfl, rfl, rfl⟩

/-- Claim C5: for every non-empty query, whenever the official adapter
returns, its items are exactly the sorted entries whose `pkgname`
contains the query string as a literal case-sensitive substring, built
through `entry_to_item`; in particular every returned item corresponds
to an entry whose name contains the query, and every fetched entry whose
name does not contain it is discarded by the filter. -/
theorem c5_official_name_substring_filter (q : String) (res : ArchQueryRes)
    (hl fd : String → String) (gid : String) (items : List Item)
    (hq : q ≠ "")
    (hok : ArchOfficialRepository.query q res hl fd gid = .ok items) :
    items = ((ArchOfficialRepository.sortResults res.results).filter
          (fun e => pyIn q e.pkgname)).map
        (fun e => ArchOfficialRepository.entry_to_item e hl fd gid)
    ∧ ∀ it ∈ items, ∃ e ∈ res.results, q.data <:+: e.pkgname.data
        ∧ it = ArchOfficialRepository.entry_to_item e hl fd gid := by
  have hshape := ArchOfficialRepository.query_ok_shape q res hl fd gid items hok
  refine ⟨hshape, ?_⟩
  intro it hit
  rw [hshape] at hit
  rcases List.mem_map.mp hit with ⟨e, he, rfl⟩
  rcases List.mem_filter.mp he with ⟨hesort, hp⟩
  refine ⟨e, ?_, ?_, rfl⟩
  · simp only [ArchOfficialRepository.sortResults, List.mem_insertionSort] at hesort
    exact hesort
  · simp only [pyIn] at hp
    exact of_decide_eq_true hp

/-- Witness for C5, on the spec's own example: query `"fire"`, an entry
named `"firefox"` (kept) and an entry named `"mozilla"` with description
`"fire starter"` (discarded). -/
theorem c5_witness :
    [ArchOfficialRepository.entry_to_item
        ⟨"firefox", "core", "x86_64", "1", "1", "a browser", "", none, ["m"]⟩
        (fun n => n) (fun _ => "") "pid"]
      = ((ArchOfficialRepository.sortResults
            [⟨"firefox", "core", "x86_64", "1", "1", "a browser", "", none, ["m"]⟩,
             ⟨"mozilla", "core", "x86_64", "1", "1", "fire starter", "", none, ["m"]⟩]).filter
          (fun e => pyIn "fire" e.pkgname)).map
        (fun e => ArchOfficialRepository.entry_to_item e (fun n => n) (fun _ => "") "pid")
    ∧ ∀ it ∈ [ArchOfficialRepository.entry_to_item
        ⟨"firefox", "core", "x86_64", "1", "1", "a browser", "", none, ["m"]⟩
        (fun n => n) (fun _ => "") "pid"],
        ∃ e ∈ [(⟨"firefox", "core", "x86_64", "1", "1", "a browser", "", none, ["m"]⟩ :
            ArchQueryEntry),
          ⟨"mozilla", "core", "x86_64", "1", "1", "fire starter", "", none, ["m"]⟩],
          "fire".data <:+: e.pkgname.data
          ∧ it = ArchOfficialRepository.entry_to_item e (fun n => n) (fun _ => "") "pid" :=
  c5_official_name_substring_filter "fire"
    ⟨[⟨"firefox", "core", "x86_64", "1", "1", "a browser", "", none, ["m"]⟩,
      ⟨"mozilla", "core", "x86_64", "1", "1", "fire starter", "", none, ["m"]⟩]⟩
    (fun n => n) (fun _ => "") "pid" _ (by decide) rfl

/-- Claim C6: the official sort output is totally ordered ascending by
the composite key (repository rank in the fixed repository list, name
length, name), the community sort output by (name length, name), and
each sort is idempotent: sorting an already-sorted list changes
nothing. -/
theorem c6_sort_orders_and_idempotence (lo : List ArchQueryEntry) (la : List AurQueryEntry) :
    (List.Sorted (fun a b => ArchOfficialRepository.sortLe a b = true)
        (ArchOfficialRepository.sortResults lo)
      ∧ ArchOfficialRepository.sortResults (ArchOfficialRepository.sortResults lo)
          = ArchOfficialRepository.sortResults lo)
    ∧ (List.Sorted (fun a b => ArchUserRepository.sortLe a b = true)
        (ArchUserRepository.sortResults la)
      ∧ ArchUserRepository.sortResults (ArchUserRepository.sortResults la)
          = ArchUserRepository.sortResults la) := by
  haveI : IsTotal ArchQueryEntry (fun a b => ArchOfficialRepository.sortLe a b = true) :=
    ⟨officialSortLe_total⟩
  haveI : IsTrans ArchQueryEntry (fun a b => ArchOfficialRepository.sortLe a b = true) :=
    ⟨officialSortLe_trans⟩
  haveI : IsTotal AurQueryEntry (fun a b => ArchUserRepository.sortLe a b = true) :=
    ⟨aurSortLe_total⟩
  haveI : IsTrans AurQueryEntry (fun a b => ArchUserRepository.sortLe a b = true) :=
    ⟨aurSortLe_trans⟩
  exact ⟨⟨List.sorted_insertionSort _ _,
      List.Sorted.insertionSort_eq (List.sorted_insertionSort _ _)⟩,
    ⟨List.sorted_insertionSort _ _,
      List.Sorted.insertionSort_eq (List.sorted_insertionSort _ _)⟩⟩

/-- Claim C8: an `error`-typed community envelope that carries a message
yields exactly one DisplayItem whose subtext is the upstream message
verbatim and whose action list is empty, regardless of any entries in
the envelope (normal entry mapping is bypassed). -/
theorem c8_aur_error_envelope (q : String) (res : AurQueryRes) (hl : String → String)
    (ft : Int → String) (gid msg : String)
    (htype : res.type = "error") (herr : res.error = some msg) :
    ArchUserRepository.query q res hl ft gid
      = .ok [{ id := gid, text := "Error", subtext := msg, iconUrls := [ICON_URL],
               actions := [] }] := by
  unfold ArchUserRepository.query
  rw [if_pos (by simp [htype]), herr]

/-- Witness for C8, on the spec's own example message, with a non-empty
entry list to exhibit that mapping is bypassed. -/
theorem c8_witness :
    ArchUserRepository.query "x"
        ⟨"error", [⟨"n", "1", "d", "", 0, none, some "m"⟩], some "Rate limit exceeded"⟩
        (fun n => n) (fun _ => "") "pid"
      = .ok [{ id := "pid", text := "Error", subtext := "Rate limit exceeded",
               iconUrls := [ICON_URL], actions := [] }] :=
  c8_aur_error_envelope "x"
    ⟨"error", [⟨"n", "1", "d", "", 0, none, some "m"⟩], some "Rate limit exceeded"⟩
    (fun n => n) (fun _ => "") "pid" "Rate limit exceeded" rfl rfl

/-- Claim C10: an `error`-typed community envelope without an `error`
field makes the adapter fail the `assert 'error' in data` of line 174
instead of returning any item: well-formedness of the error envelope is
a precondition for producing output at all. -/
theorem c10_missing_error_field_asserts (q : String) (res : AurQueryRes)
    (hl : String → String) (ft : Int → String) (gid : String)
    (htype : res.type = "error") (herr : res.error = none) :
    ArchUserRepository.query q res hl ft gid = .error .assertionFailed := by
  unfold ArchUserRepository.query
  rw [if_pos (by simp [htype]), herr]

/-- Witness for C10. -/
theorem c10_witness :
    ArchUserRepository.query "x" ⟨"error", [⟨"n", "1", "d", "", 0, none, some "m"⟩], none⟩
        (fun n => n) (fun _ => "") "pid"
      = .error .assertionFailed :=
  c10_missing_error_field_asserts "x"
    ⟨"error", [⟨"n", "1", "d", "", 0, none, some "m"⟩], none⟩
    (fun n => n) (fun _ => "") "pid" rfl rfl

/-- Claim C9: an input that is empty or whitespace-only after trimming
makes the controller emit exactly one static help DisplayItem carrying
exactly two actions (open the official packages site, open the AUR
site), with zero network calls, whatever the validity signal or the
would-be adapter responses. -/
theorem c9_empty_query_static_help (s : String) (valid : Nat → Bool) (d : Nat)
    (oh : Except PyErr ArchQueryRes) (ah : Except PyErr AurQueryRes)
    (hl fd : String → String) (ft : Int → String) (gid : String)
    (h : pyStrip s = "") :
    Plugin.handleTriggerQuery s valid d oh ah hl fd ft gid = (0, [Plugin.helpItem gid])
    ∧ (Plugin.helpItem gid).actions.length = 2
    ∧ (Plugin.helpItem gid).actions.map Action.opensUrl
        = ["https://archlinux.org/packages/", "https://aur.archlinux.org/packages/"] := by
  refine ⟨?_, rfl, rfl⟩
  simp only [Plugin.handleTriggerQuery]
  rw [if_pos (by simp [h])]

/-- Witness for C9 on a whitespace-only input. -/
theorem c9_witness :
    Plugin.handleTriggerQuery " \t " (fun _ => true) 0 (.ok ⟨[]⟩) (.ok ⟨"search", [], none⟩)
        (fun n => n) (fun n => n) (fun _ => "") "pid" = (0, [Plugin.helpItem "pid"])
    ∧ (Plugin.helpItem "pid").actions.length = 2
    ∧ (Plugin.helpItem "pid").actions.map Action.opensUrl
        = ["https://archlinux.org/packages/", "https://aur.archlinux.org/packages/"] :=
  c9_empty_query_static_help " \t " (fun _ => true) 0 (.ok ⟨[]⟩) (.ok ⟨"search", [], none⟩)
    (fun n => n) (fun n => n) (fun _ => "") "pid" rfl

/-- Pacing helper: if validity is monotone (once lost, never regained)
and is already lost at some tick `t ≤ 50`, the pacing loop of lines
229–232 observes it and aborts. -/
theorem Plugin.pacingAborted_of_invalid (valid : Nat → Bool) (t : Nat)
    (hmono : ∀ i j : Nat, i ≤ j → valid j = true → valid i = true)
    (ht : t ≤ 50) (hinv : valid t = false) :
    Plugin.pacingAborted valid = true := by
  unfold Plugin.pacingAborted
  rw [List.any_eq_true]
  have h50 : valid 50 = false := by
    cases h : valid 50 with
    | false => rfl
    | true =>
      have := hmono t 50 ht h
      rw [hinv] at this
      exact Bool.noConfusion this
  exact ⟨49, by simp, by simp [h50]⟩

/-- Claim C7: once a (non-empty) query becomes invalid, nothing reaches
the output: whenever validity is lost at any tick up to the delivery
point `50 + d`, zero DisplayItems are emitted, and if it is lost during
the pacing window (tick ≤ 50) the handler additionally makes zero
network calls.  The host-side discard of `query.add` after invalidation
is `queryAdd`, modelled from the spec. -/
theorem c7_invalidated_query_emits_nothing (s : String) (valid : Nat → Bool) (d : Nat)
    (oh : Except PyErr ArchQueryRes) (ah : Except PyErr AurQueryRes)
    (hl fd : String → String) (ft : Int → String) (gid : String) (t : Nat)
    (hq : pyStrip s ≠ "")
    (hmono : ∀ i j : Nat, i ≤ j → valid j = true → valid i = true)
    (ht : t ≤ 50 + d) (hinv : valid t = false) :
    (Plugin.handleTriggerQuery s valid d oh ah hl fd ft gid).2 = []
    ∧ (t ≤ 50 → Plugin.handleTriggerQuery s valid d oh ah hl fd ft gid = (0, [])) := by
  have hforward : ∀ u, t ≤ u → valid u = false := by
    intro u hu
    cases h : valid u with
    | false => rfl
    | true =>
      have := hmono t u hu h
      rw [hinv] at this
      exact Bool.noConfusion this
  by_cases hp : Plugin.pacingAborted valid = true
  · constructor
    · simp only [Plugin.handleTriggerQuery]
      rw [if_neg (by simp [hq]), if_pos hp]
    · intro _
      simp only [Plugin.handleTriggerQuery]
      rw [if_neg (by simp [hq]), if_pos hp]
  · have ht50 : ¬ t ≤ 50 := fun hle =>
      hp (Plugin.pacingAborted_of_invalid valid t hmono hle hinv)
    refine ⟨?_, fun hcontra => absurd hcontra ht50⟩
    have hv : valid (50 + d) = false := hforward (50 + d) ht
    simp only [Plugin.handleTriggerQuery]
    rw [if_neg (by simp [hq]), if_neg hp]
    cases ho2 : oh.bind (fun r => ArchOfficialRepository.query (pyStrip s) r hl fd gid) with
    | error e =>
      cases ha2 : ah.bind (fun r => ArchUserRepository.query (pyStrip s) r hl ft gid) <;> rfl
    | ok o =>
      cases ha2 : ah.bind (fun r => ArchUserRepository.query (pyStrip s) r hl ft gid) with
      | error e => rfl
      | ok a => simp [queryAdd, hv]

/-- Witness for C7: validity holds only before tick 10, so the query is
invalidated during the pacing wait. -/
theorem c7_witness :
    ((Plugin.handleTriggerQuery "x" (fun i => decide (i < 10)) 0 (.ok ⟨[]⟩)
        (.ok ⟨"search", [], none⟩) (fun n => n) (fun n => n) (fun _ => "") "pid").2 = []
    ∧ (20 ≤ 50 → Plugin.handleTriggerQuery "x" (fun i => decide (i < 10)) 0 (.ok ⟨[]⟩)
        (.ok ⟨"search", [], none⟩) (fun n => n) (fun n => n) (fun _ => "") "pid"
          = (0, []))) :=
  c7_invalidated_query_emits_nothing "x" (fun i => decide (i < 10)) 0 (.ok ⟨[]⟩)
    (.ok ⟨"search", [], none⟩) (fun n => n) (fun n => n) (fun _ => "") "pid" 20
    (by decide)
    (by intro i j hij hj; simp only [decide_eq_true_eq] at hj ⊢; omega)
    (by omega) (by decide)

/-- Counterexample to claim C1: the official adapter fails with a
transport error while the community adapter succeeds with one item, yet
the controller delivers nothing — `future.result()` re-raises inside the
single list comprehension of line 240, so the one `query.add` never
runs and the surviving source's items are suppressed. -/
theorem c1_counterexample_failure_not_isolated :
    (ArchUserRepository.query "yay"
        ⟨"search", [⟨"yay", "12.0", "AUR helper", "", 2000, none, some "jg"⟩], none⟩
        (fun n => n) (fun _ => "") "pid").toOption.map List.length = some 1
    ∧ (Plugin.handleTriggerQuery "yay" (fun _ => true) 0 (.error .transport)
        (.ok ⟨"search", [⟨"yay", "12.0", "AUR helper", "", 2000, none, some "jg"⟩], none⟩)
        (fun n => n) (fun n => n) (fun _ => "") "pid").2 = [] :=
  ⟨rfl, rfl⟩

/-- Claim C1 as amended: for a non-empty query, a failure of either
source adapter (transport or decode) suppresses delivery entirely — the
controller emits no items from either source. -/
theorem c1_amended_failure_suppresses_all (s : String) (valid : Nat → Bool) (d : Nat)
    (oh : Except PyErr ArchQueryRes) (ah : Except PyErr AurQueryRes)
    (hl fd : String → String) (ft : Int → String) (gid : String)
    (hq : pyStrip s ≠ "")
    (hfail : (∃ e, oh = Except.error e) ∨ (∃ e, ah = Except.error e)) :
    (Plugin.handleTriggerQuery s valid d oh ah hl fd ft gid).2 = [] := by
  simp only [Plugin.handleTriggerQuery]
  rw [if_neg (by simp [hq])]
  by_cases hp : Plugin.pacingAborted valid = true
  · rw [if_pos hp]
  · rw [if_neg hp]
    rcases hfail with ⟨e, rfl⟩ | ⟨e, rfl⟩
    · cases ha2 : ah.bind (fun r => ArchUserRepository.query (pyStrip s) r hl ft gid) <;> rfl
    · cases ho2 : oh.bind (fun r => ArchOfficialRepository.query (pyStrip s) r hl fd gid) <;>
        rfl

/-- Witness for the amended C1. -/
theorem c1_amended_witness :
    (Plugin.handleTriggerQuery "yay" (fun _ => true) 0 (.error .transport)
        (.ok ⟨"search", [⟨"yay", "12.0", "AUR helper", "", 2000, none, some "jg"⟩], none⟩)
        (fun n => n) (fun n => n) (fun _ => "") "pid0").2 = [] :=
  c1_amended_failure_suppresses_all "yay" (fun _ => true) 0 (.error .transport)
    (.ok ⟨"search", [⟨"yay", "12.0", "AUR helper", "", 2000, none, some "jg"⟩], none⟩)
    (fun n => n) (fun n => n) (fun _ => "") "pid0" (by decide)
    (Or.inl ⟨.transport, rfl⟩)

/-- Counterexample to claim C2: even with a server declaring 3 pages,
the official adapter issues exactly one request, and that request
carries no `page` parameter at all — lines 90–115 contain no pagination
loop and never read a page count. -/
theorem c2_counterexample_no_pagination :
    (ArchOfficialRepository.issuedRequests "x").length = 1
    ∧ ArchOfficialRepository.issuedRequests "x" ≠ specPagedRequests "x" 3
    ∧ (ArchOfficialRepository.requestParams "x").filter (fun p => p.1 == "page") = [] :=
  ⟨rfl, by decide, rfl⟩

/-- Claim C2 as amended: for every query the official adapter issues
exactly one unpaginated request (repo restriction plus the query string,
no `page` parameter), returning all its items as one batch; whenever the
declared total page count is at least 2, the issued requests differ from
the paged request sequence the original claim describes. -/
theorem c2_amended_single_unpaged_request (q : String) (n : Nat) (hn : 2 ≤ n) :
    ArchOfficialRepository.issuedRequests q = [ArchOfficialRepository.requestParams q]
    ∧ (ArchOfficialRepository.requestParams q).filter (fun p => p.1 == "page") = []
    ∧ ArchOfficialRepository.issuedRequests q ≠ specPagedRequests q n := by
  refine ⟨rfl, rfl, ?_⟩
  intro h
  have hlen := congrArg List.length h
  simp only [ArchOfficialRepository.issuedRequests, specPagedRequests, List.length_map,
    List.length_range, List.length_singleton] at hlen
  omega

/-- Witness for the amended C2. -/
theorem c2_amended_witness :
    ArchOfficialRepository.issuedRequests "x" = [ArchOfficialRepository.requestParams "x"]
    ∧ (ArchOfficialRepository.requestParams "x").filter (fun p => p.1 == "page") = []
    ∧ ArchOfficialRepository.issuedRequests "x" ≠ specPagedRequests "x" 3 :=
  c2_amended_single_unpaged_request "x" 3 (by omega)

/-- First item of the C3 counterexample run. -/
def c3ItemA : Item :=
  { id := "pid"
    text := "ya 1-1"
    subtext := "<font color=\"dimgray\">[core]</font> d1"
    iconUrls := [ICON_URL]
    actions := [Action.mk (md_name ++ "/https://archlinux.org/packages/core/x86_64/ya/")
      "Open Arch repositories website" "https://archlinux.org/packages/core/x86_64/ya/"] }

/-- Second item of the C3 counterexample run. -/
def c3ItemB : Item :=
  { id := "pid"
    text := "yb 1-1"
    subtext := "<font color=\"dimgray\">[core]</font> d2"
    iconUrls := [ICON_URL]
    actions := [Action.mk (md_name ++ "/https://archlinux.org/packages/core/x86_64/yb/")
      "Open Arch repositories website" "https://archlinux.org/packages/core/x86_64/yb/"] }

/-- Counterexample to claim C3: one query producing two distinct
DisplayItems with the same identifier — `StandardItem(id=gen_id(), ...)`
passes `self.id` as `gen_id` (lines 236–237), so every item of a query
carries the plugin id, not a source-and-name-namespaced one. -/
theorem c3_counterexample_ids_collide :
    ArchOfficialRepository.query "y"
        ⟨[⟨"yb", "core", "x86_64", "1", "1", "d2", "", none, ["m"]⟩,
          ⟨"ya", "core", "x86_64", "1", "1", "d1", "", none, ["m"]⟩]⟩
        (fun n => n) (fun _ => "") "pid"
      = .ok [c3ItemA, c3ItemB]
    ∧ c3ItemA ≠ c3ItemB ∧ c3ItemA.id = c3ItemB.id :=
  ⟨rfl, by decide, rfl⟩

/-- Claim C3 as amended: DisplayItem identifiers are not namespaced by
source and name; every item either adapter returns for a query — and the
static help item — carries one and the same identifier, the plugin id
returned by `gen_id`. -/
theorem c3_amended_all_ids_are_plugin_id (q : String) (resO : ArchQueryRes)
    (resA : AurQueryRes) (hl fd : String → String) (ft : Int → String) (gid : String)
    (itemsO itemsA : List Item)
    (ho : ArchOfficialRepository.query q resO hl fd gid = .ok itemsO)
    (ha : ArchUserRepository.query q resA hl ft gid = .ok itemsA) :
    (∀ it ∈ itemsO, it.id = gid) ∧ (∀ it ∈ itemsA, it.id = gid)
    ∧ (Plugin.helpItem gid).id = gid := by
  refine ⟨?_, ArchUserRepository.query_ok_ids q resA hl ft gid itemsA ha, rfl⟩
  have hshape := ArchOfficialRepository.query_ok_shape q resO hl fd gid itemsO ho
  intro it hit
  rw [hshape] at hit
  rcases List.mem_map.mp hit with ⟨e, _, rfl⟩
  rfl

/-- Witness for the amended C3. -/
theorem c3_amended_witness :
    (∀ it ∈ [ArchOfficialRepository.entry_to_item
        ⟨"ya", "core", "x86_64", "1", "1", "d1", "", none, ["m"]⟩
        (fun n => n) (fun _ => "") "pid"], it.id = "pid")
    ∧ (∀ it ∈ [ArchUserRepository.entry_to_item
        ⟨"yay", "12.0", "AUR helper", "", 2000, none, some "jg"⟩
        (fun n => n) (fun _ => "") "pid"], it.id = "pid")
    ∧ (Plugin.helpItem "pid").id = "pid" :=
  c3_amended_all_ids_are_plugin_id "ya"
    ⟨[⟨"ya", "core", "x86_64", "1", "1", "d1", "", none, ["m"]⟩]⟩
    ⟨"search", [⟨"yay", "12.0", "AUR helper", "", 2000, none, some "jg"⟩], none⟩
    (fun n => n) (fun n => n) (fun _ => "") "pid" _ _ rfl rfl

end ArchPackages
